import Mathlib

/-!
Shallow embedding of the repository moisbo/binder-web-app:
the test HTTP server in `test_jupyter_proxy.py` and the companion
configuration artifact `.jupyter/jupyter_server_config.py`.

Machine-level conventions: Python strings are Lean `String`s, Python
`None`-able environment lookups are `Option String`, the port is `Nat`
where it comes from `server.server_port` and `Int` where it comes from
`int(sys.argv[1])` (Python integers are unbounded and may be negative).
Printed output is tracked as a list of the strings passed to `print`.
-/

/- ### Generic string helpers (substring occurrence, suffix test)

`String.endsWith` from the core library does not reduce in the kernel,
so the embedding uses its own character-list versions of the string
predicates the source needs. -/

/-- `charsMatch n h` is true when `n` is an initial segment of `h`. -/
def charsMatch : List Char → List Char → Bool
  | [], _ => true
  | _ :: _, [] => false
  | a :: as, b :: bs => a == b && charsMatch as bs

/-- `occursInChars n h` is true when `n` occurs contiguously inside `h`. -/
def occursInChars (needle : List Char) : List Char → Bool
  | [] => charsMatch needle []
  | c :: rest => charsMatch needle (c :: rest) || occursInChars needle rest

/-- Substring occurrence on strings (Python's `needle in haystack`). -/
def occursIn (needle haystack : String) : Bool :=
  occursInChars needle.data haystack.data

/-- Python's `s.endswith(t)`. -/
def strEndsWith (s t : String) : Bool :=
  charsMatch t.data.reverse s.data.reverse

/- ### Environment context

The server reads three optional environment variables
(`JUPYTERHUB_SERVICE_PREFIX`, `JUPYTERHUB_BASE_URL`, `JUPYTERHUB_USER`).
`none` models an unset variable; `some v` models a variable set to `v`
(possibly the empty string, which `os.environ.get` does distinguish
from unset). -/

structure Env where
  servicePrefixVar : Option String
  baseUrl : Option String
  user : Option String

/-- Lines 39-41 of `test_jupyter_proxy.py`:

`proxy_prefix = os.environ.get("JUPYTERHUB_SERVICE_PREFIX", "")` followed by
`if proxy_prefix and not proxy_prefix.endswith("/"): proxy_prefix += "/"`.

A Python string is truthy exactly when it is nonempty. -/
def proxyPrefixOf (env : Env) : String :=
  let p := env.servicePrefixVar.getD ""
  if (p != "") && !(strEndsWith p "/") then p ++ "/" else p

/-- The proxy-prefix derivation as the specification words it (for
comparison with `proxyPrefixOf`, which is taken from the source): append a
trailing separator whenever the variable is set and does not already end
with one; keep it unchanged when it already ends with one; empty when
unset. Note the spec version has no nonemptiness test. -/
def specProxyPrefixOf (env : Env) : String :=
  match env.servicePrefixVar with
  | none => ""
  | some v => if strEndsWith v "/" then v else v ++ "/"

/-- Lines 33-183 of `test_jupyter_proxy.py`: the home page produced for
`/` and `/index.html`, the f-string `html_content` rendered verbatim
(braces escaped as `\x7b`/`\x7d` and apostrophes as `\x27`), with the
request path, the server port, the derived proxy prefix and the three
environment values interpolated exactly where the source interpolates
them. -/
def htmlContent (path : String) (port : Nat) (env : Env) : String :=
  let proxy_prefix := proxyPrefixOf env
  "
<!DOCTYPE html>
<html>
<head>
    <title>Jupyter Server Proxy Test</title>
    <style>
        body \x7b
            font-family: Arial, sans-serif;
            max-width: 800px;
            margin: 50px auto;
            padding: 20px;
            background: linear-gradient(135deg, #667eea 0%, #764ba2 100%);
            color: white;
        \x7d
        .container \x7b
            background: rgba(255, 255, 255, 0.1);
            padding: 30px;
            border-radius: 10px;
            backdrop-filter: blur(10px);
        \x7d
        h1 \x7b
            color: #fff;
            text-align: center;
        \x7d
        .info \x7b
            background: rgba(255, 255, 255, 0.2);
            padding: 15px;
            border-radius: 5px;
            margin: 20px 0;
        \x7d
        .success \x7b
            background: rgba(76, 175, 80, 0.3);
            border-left: 4px solid #4CAF50;
        \x7d
        code \x7b
            background: rgba(0, 0, 0, 0.3);
            padding: 2px 6px;
            border-radius: 3px;
            font-family: \x27Courier New\x27, monospace;
        \x7d
        .test-button \x7b
            background: #4CAF50;
            color: white;
            padding: 10px 20px;
            border: none;
            border-radius: 5px;
            cursor: pointer;
            margin: 10px 5px;
        \x7d
        .test-button:hover \x7b
            background: #45a049;
        \x7d
        #api-result \x7b
            margin-top: 20px;
            padding: 10px;
            background: rgba(0, 0, 0, 0.2);
            border-radius: 5px;
            min-height: 50px;
        \x7d
    </style>
</head>
<body>
    <div class=\"container\">
        <h1>🎉 Jupyter Server Proxy Test Page</h1>
        
        <div class=\"info success\">
            <strong>✅ Success!</strong> The proxy is working correctly.
        </div>
        
        <div class=\"info\">
            <h3>Connection Details:</h3>
            <p><strong>Request Path:</strong> <code>"
  ++ path
  ++ "</code></p>
            <p><strong>Server Port:</strong> <code>"
  ++ toString port
  ++ "</code></p>
            <p><strong>Proxy Prefix:</strong> <code>"
  ++ (if proxy_prefix = "" then "Not set (direct access)" else proxy_prefix)
  ++ "</code></p>
            <p><strong>Access URL:</strong> <code>"
  ++ proxy_prefix
  ++ "proxy/"
  ++ toString port
  ++ "/</code></p>
        </div>
        
        <div class=\"info\">
            <h3>Interactive Tests:</h3>
            <button class=\"test-button\" onclick=\"testApi()\">Test API Endpoint</button>
            <button class=\"test-button\" onclick=\"testStatic()\">Load Static Resource</button>
            <div id=\"api-result\"></div>
        </div>
        
        <div class=\"info\">
            <h3>Environment Variables:</h3>
            <ul>
                <li><strong>JUPYTERHUB_SERVICE_PREFIX:</strong> <code>"
  ++ env.servicePrefixVar.getD "Not set"
  ++ "</code></li>
                <li><strong>JUPYTERHUB_BASE_URL:</strong> <code>"
  ++ env.baseUrl.getD "Not set"
  ++ "</code></li>
                <li><strong>JUPYTERHUB_USER:</strong> <code>"
  ++ env.user.getD "Not set"
  ++ "</code></li>
            </ul>
        </div>
        
        <div class=\"info\">
            <h3>How to Use:</h3>
            <ol>
                <li>If you see this page, jupyter-server-proxy is working! ✨</li>
                <li>Try the interactive tests above to verify API routing</li>
                <li>Check the browser console for detailed request information</li>
            </ol>
        </div>
    </div>
    
    <script>
        console.log(\x27Jupyter Server Proxy Test Page loaded\x27);
        console.log(\x27Current URL:\x27, window.location.href);
        console.log(\x27Proxy prefix:\x27, \x27"
  ++ proxy_prefix
  ++ "\x27);
        
        function testApi() \x7b
            const resultDiv = document.getElementById(\x27api-result\x27);
            resultDiv.innerHTML = \x27<em>Loading...</em>\x27;
            
            fetch(\x27/api/test\x27)
                .then(response => response.json())
                .then(data => \x7b
                    resultDiv.innerHTML = `<strong>API Response:</strong><br><code>$\x7bJSON.stringify(data, null, 2)\x7d</code>`;
                \x7d)
                .catch(error => \x7b
                    resultDiv.innerHTML = `<strong style=\"color: #ff6b6b;\">Error:</strong> $\x7berror.message\x7d`;
                \x7d);
        \x7d
        
        function testStatic() \x7b
            const resultDiv = document.getElementById(\x27api-result\x27);
            resultDiv.innerHTML = \x27<em>Checking static resource...</em>\x27;
            
            fetch(\x27/static/test.txt\x27)
                .then(response => response.text())
                .then(data => \x7b
                    resultDiv.innerHTML = `<strong>Static Resource:</strong><br><code>$\x7bdata\x7d</code>`;
                \x7d)
                .catch(error => \x7b
                    resultDiv.innerHTML = `<strong style=\"color: #ff6b6b;\">Note:</strong> Static resource not found (expected for basic test)`;
                \x7d);
        \x7d
    </script>
</body>
</html>
"

/-- Lines 191-197 of `test_jupyter_proxy.py`: the `/api/test` response body is
`str(response)` where `response` is the dict literal
with keys `status`, `message`, `port`, `path` in that order.  Python's
`str` of a dict renders string values with single quotes (escaped here as
`\x27`) and integers in decimal, so the body below is the exact text the
server writes. -/
def apiTestBody (port : Nat) (path : String) : String :=
  "\x7b\x27status\x27: \x27ok\x27, \x27message\x27: \x27API endpoint working through proxy\x27, \x27port\x27: "
  ++ toString port ++ ", \x27path\x27: \x27" ++ path ++ "\x27\x7d"

/-- An HTTP response as the handler produces it: status code, the
content-type header it sends, and the body text. -/
structure Response where
  status : Nat
  contentType : String
  body : String
deriving DecidableEq

/-- Modelled from the spec: the fallback branch of `do_GET` calls
`super().do_GET()`, i.e. `http.server.SimpleHTTPRequestHandler.do_GET`,
which is standard-library code not present in this repository.  The spec
describes it as: attempt to resolve the path to a file under the current
working directory and stream it with standard file-serving semantics
(404 if absent).  The file system is modelled as a partial map from paths
to file contents. -/
def simpleHTTPRequestHandlerDoGET (fs : String → Option String) (path : String) : Response :=
  match fs path with
  | some content => { status := 200, contentType := "application/octet-stream", body := content }
  | none => { status := 404, contentType := "text/html", body := "404 Not Found" }

/-- Lines 31-202 of `test_jupyter_proxy.py`: `ProxyTestHandler.do_GET`
dispatches on the request path: the home page for `/` or `/index.html`,
the JSON-like probe for `/api/test`, and the inherited file-serving
behavior for everything else.  `port` is `self.server.server_port`. -/
def do_GET (env : Env) (fs : String → Option String) (port : Nat) (path : String) : Response :=
  if path = "/" ∨ path = "/index.html" then
    { status := 200, contentType := "text/html", body := htmlContent path port env }
  else if path = "/api/test" then
    { status := 200, contentType := "application/json", body := apiTestBody port path }
  else
    simpleHTTPRequestHandlerDoGET fs path

/-- Lines 204-206 of `test_jupyter_proxy.py`: `ProxyTestHandler.log_message`
prints one line `[Proxy Test Server] address - formatted` where
`formatted` is `format % args` as supplied by the base handler. -/
def log_message (address formatted : String) : String :=
  "[Proxy Test Server] " ++ address ++ " - " ++ formatted

/-- A request as the handler sees it: the path, the client address
(`self.address_string()`), and the raw request line. -/
structure Request where
  path : String
  address : String
  requestLine : String

/-- Modelled from the spec: the base handler (standard-library code not in
this repository) calls `log_message` exactly once per handled request, via
`log_request`, passing format `'"%s" %s %s'` with the request line, the
response code and the size (`'-'`).  The pair returned is the response
produced by `do_GET` together with the list of log lines printed while
handling the request. -/
def handleRequest (env : Env) (fs : String → Option String) (port : Nat) (req : Request) :
    Response × List String :=
  let r := do_GET env fs port req.path
  (r, [log_message req.address ("\"" ++ req.requestLine ++ "\" " ++ toString r.status ++ " -")])

/- ### Startup operation `start_test_server` (lines 209-261) -/

/-- What the attempt to construct `socketserver.TCPServer(("", port), Handler)`
does: either the bind succeeds, or it raises `OSError` with some `errno`.
Which errno a bind-to-a-busy-port raises is decided by the operating
system: `EADDRINUSE` is 48 on macOS and 98 on Linux. -/
inductive BindOutcome where
  | success
  | failure (errno : Nat)

/-- What `start_test_server` hands back to its caller. -/
inductive StartResult where
  | threadHandle
  | noneResult
  | raised (errno : Nat)
deriving DecidableEq

/-- Observable effects of a call to `start_test_server`: the returned value,
the lines printed, whether a background thread was started, whether the
listening socket is still open at the moment the call returns, and whether
the accept loop ran on the calling thread. -/
structure StartEffects where
  result : StartResult
  printedLines : List String
  backgroundThreadStarted : Bool
  socketOpenAfterReturn : Bool
  servedOnCallingThread : Bool
deriving DecidableEq

/-- Sixty equals signs, Python's `'='*60`. -/
def eqBar : String := String.mk (List.replicate 60 '=')

/-- Lines 224-237 of `test_jupyter_proxy.py`: the banner printed after a
successful bind.  Lines 231-235 recompute the service prefix with the same
truthiness-guarded trailing-slash logic as the handler, and print the full
URL only when the prefix is nonempty. -/
def startupBanner (port : Int) (env : Env) : List String :=
  ["\n" ++ eqBar,
   "  Jupyter Server Proxy Test Server",
   eqBar,
   "  Server running on port " ++ toString port,
   "  Access via proxy: /proxy/" ++ toString port ++ "/"]
  ++ (let p := proxyPrefixOf env
      if p = "" then [] else ["  Full URL: " ++ p ++ "proxy/" ++ toString port ++ "/"])
  ++ [eqBar ++ "\n"]

/-- Lines 209-261 of `test_jupyter_proxy.py`: `start_test_server`.

The whole body runs inside `with socketserver.TCPServer(("", port), Handler)
as httpd:`.  Returning from inside that block (the `return thread` of the
background branch, and the `return None` after a foreground interrupt) runs
`TCPServer.__exit__`, which calls `server_close()`; hence the listening
socket is closed before control reaches the caller in every path, including
the background one.  A failed bind raises `OSError`; the handler at lines
256-261 treats errno 48 (with the comment `Address already in use`) as the
port-in-use case, prints two message lines and falls off the end of the
function (returning `None`); every other errno is re-raised by `raise`.
In foreground mode the only exit from `serve_forever()` modelled is the
`KeyboardInterrupt` the source catches, after which it prints the shutdown
line and returns `None`. -/
def start_test_server (port : Int) (background : Bool) (env : Env) (bind : BindOutcome) :
    StartEffects :=
  match bind with
  | .success =>
    if background then
      { result := .threadHandle
        printedLines := startupBanner port env
        backgroundThreadStarted := true
        socketOpenAfterReturn := false
        servedOnCallingThread := false }
    else
      { result := .noneResult
        printedLines := startupBanner port env ++ ["\nShutting down test server..."]
        backgroundThreadStarted := false
        socketOpenAfterReturn := false
        servedOnCallingThread := true }
  | .failure errno =>
    if errno = 48 then
      { result := .noneResult
        printedLines := ["\n❌ Error: Port " ++ toString port ++ " is already in use.",
                         "   Try a different port or stop the existing server.\n"]
        backgroundThreadStarted := false
        socketOpenAfterReturn := false
        servedOnCallingThread := false }
    else
      { result := .raised errno
        printedLines := []
        backgroundThreadStarted := false
        socketOpenAfterReturn := false
        servedOnCallingThread := false }

/- ### Command-line entry point (lines 291-309) -/

/-- Python `str.isspace` members relevant to `int()` argument stripping
(ASCII whitespace). -/
def isPySpace (c : Char) : Bool :=
  c == ' ' || c == '\t' || c == '\n' || c == '\r' || c == '\x0b' || c == '\x0c'

/-- Numeric value of an ASCII digit. -/
def digitVal (c : Char) : Nat := c.toNat - 48

/-- Digits of a Python integer literal after the first: decimal digits with
single underscores allowed between digits. -/
def pyDigitsAux (acc : Nat) : List Char → Option Nat
  | [] => some acc
  | '_' :: c :: cs => if c.isDigit then pyDigitsAux (acc * 10 + digitVal c) cs else none
  | c :: cs => if c.isDigit then pyDigitsAux (acc * 10 + digitVal c) cs else none

/-- A nonempty run of decimal digits (with interior underscores), as
accepted by Python's `int`. -/
def pyDigits : List Char → Option Nat
  | [] => none
  | c :: cs => if c.isDigit then pyDigitsAux (digitVal c) cs else none

/-- Strip leading and trailing whitespace from a character list. -/
def pyStrip (s : List Char) : List Char :=
  ((s.dropWhile isPySpace).reverse.dropWhile isPySpace).reverse

/-- Python's `int(s)` on a string argument: optional surrounding
whitespace, an optional sign immediately followed by digits; `none` models
the `ValueError` raised on anything else. -/
def pyInt (s : String) : Option Int :=
  match pyStrip s.data with
  | '+' :: rest => (pyDigits rest).map (fun n => (n : Int))
  | '-' :: rest => (pyDigits rest).map (fun n => -(n : Int))
  | rest => (pyDigits rest).map (fun n => (n : Int))

/-- Outcome of running the module as a program. -/
inductive MainOutcome where
  | usageExit (printed : List String) (exitCode : Nat)
  | ran (port : Int) (background : Bool) (effects : StartEffects)
deriving DecidableEq

/-- Lines 291-309 of `test_jupyter_proxy.py`: the `__main__` block.  `argv`
is the full `sys.argv` (program name first).  With no argument the port
defaults to 9999; an argument that `int` rejects prints the two usage lines
and exits with status 1; otherwise the parsed port is used.  Either way the
server is then run with `background=False`.  The informational tip lines
printed before starting are not tracked. -/
def pyMain (argv : List String) (env : Env) (bind : BindOutcome) : MainOutcome :=
  match argv.drop 1 with
  | [] => .ran 9999 false (start_test_server 9999 false env bind)
  | a :: _ =>
    match pyInt a with
    | some n => .ran n false (start_test_server n false env bind)
    | none => .usageExit ["Invalid port number: " ++ a,
                          "Usage: python test_jupyter_proxy.py [port]"] 1

/- ### Companion configuration artifact -/

/-- A `launcher_entry` mapping of a jupyter-server-proxy server entry. -/
structure LauncherEntry where
  enabled : Bool
  title : String
  iconPath : Option String
deriving DecidableEq

/-- One entry of `c.ServerProxy.servers`. -/
structure ServerProxyEntry where
  command : List String
  port : Nat
  timeout : Nat
  absoluteUrl : Bool
  launcherEntry : LauncherEntry
deriving DecidableEq

/-- The artifact `src/.jupyter/jupyter_server_config.py`: the `proxy-test`
entry it registers under `c.ServerProxy.servers`. -/
def jupyterServerConfigEntry : ServerProxyEntry :=
  { command := ["python", "-m", "test_jupyter_proxy"]
    port := 9999
    timeout := 30
    absoluteUrl := false
    launcherEntry := { enabled := true, title := "Jupyter Proxy Test", iconPath := none } }

/-- Lines 269-286 of `test_jupyter_proxy.py`: the sample entry printed and
returned by `create_jupyter_server_config` (same values, plus an icon
path). -/
def createJupyterServerConfigEntry : ServerProxyEntry :=
  { command := ["python", "-m", "test_jupyter_proxy"]
    port := 9999
    timeout := 30
    absoluteUrl := false
    launcherEntry := { enabled := true, title := "Jupyter Proxy Test",
                       iconPath := some "/static/base/images/favicon.ico" } }

/- ### Helper lemmas about string concatenation and substring occurrence -/

theorem str_append_assoc (a b c : String) : (a ++ b) ++ c = a ++ (b ++ c) := by
  apply String.ext
  simp [List.append_assoc]

theorem charsMatch_self_append (n b : List Char) : charsMatch n (n ++ b) = true := by
  induction n with
  | nil => rfl
  | cons c cs ih => simp [charsMatch, ih]

theorem occursInChars_here (n h : List Char) (hm : charsMatch n h = true) :
    occursInChars n h = true := by
  cases h with
  | nil => simpa [occursInChars] using hm
  | cons c t => simp [occursInChars, hm]

theorem occursInChars_cons (n : List Char) (c : Char) (t : List Char)
    (ht : occursInChars n t = true) : occursInChars n (c :: t) = true := by
  simp [occursInChars, ht]

theorem occursInChars_append_left (a n t : List Char) (h : occursInChars n t = true) :
    occursInChars n (a ++ t) = true := by
  induction a with
  | nil => exact h
  | cons c cs ih => exact occursInChars_cons _ _ _ ih

theorem occursIn_of_head (n h : String) (hm : charsMatch n.data h.data = true) :
    occursIn n h = true :=
  occursInChars_here _ _ hm

theorem occursIn_self_append (n b : String) : occursIn n (n ++ b) = true := by
  unfold occursIn
  rw [String.data_append]
  exact occursInChars_here _ _ (charsMatch_self_append _ _)

theorem occursIn_cons_left (a n h : String) (hh : occursIn n h = true) :
    occursIn n (a ++ h) = true := by
  unfold occursIn at hh ⊢
  rw [String.data_append]
  exact occursInChars_append_left a.data _ _ hh

theorem charsMatch_append_same (a b c : List Char) :
    charsMatch (a ++ b) (a ++ c) = charsMatch b c := by
  induction a with
  | nil => rfl
  | cons x xs ih => simp [charsMatch, ih]

theorem charsMatch_append_right (z y r : List Char) (h : charsMatch z y = true) :
    charsMatch z (y ++ r) = true := by
  induction z generalizing y with
  | nil => rfl
  | cons a as ih =>
    cases y with
    | nil => exact absurd h (by simp [charsMatch])
    | cons b bs =>
      simp only [charsMatch, Bool.and_eq_true] at h
      simpa [charsMatch, h.1] using ih bs h.2

/- ### Claim theorems -/

/-- C1: the claim says that in background mode the listening socket remains
open and the server keeps serving after `start_test_server` returns the
thread handle.  The code does start the thread and return its handle, but
it returns from inside the `with` block, which closes the listening socket
before the caller resumes: the third conjunct records the divergence. -/
theorem c1_background_start_closes_socket (port : Int) (env : Env) :
    (start_test_server port true env .success).result = StartResult.threadHandle ∧
    (start_test_server port true env .success).backgroundThreadStarted = true ∧
    (start_test_server port true env .success).socketOpenAfterReturn = false :=
  ⟨rfl, rfl, rfl⟩

/-- C2: the code recognises the port-in-use condition only as `OSError`
with errno 48, the macOS value of `EADDRINUSE`.  On Linux a bind to a busy
port raises errno 98, which the code re-raises with no message, so the
claim that every already-bound port yields a handled PortInUse report does
not hold there; the first two conjuncts evaluate the code at that failing
input, and the last three show the errno-48 branch behaving as the claim
describes. -/
theorem c2_bind_failure_errno_check (port : Int) (background : Bool) (env : Env) :
    (start_test_server port background env (.failure 98)).result = StartResult.raised 98 ∧
    (start_test_server port background env (.failure 98)).printedLines = [] ∧
    (start_test_server port background env (.failure 48)).result = StartResult.noneResult ∧
    (start_test_server port background env (.failure 48)).printedLines =
      ["\n❌ Error: Port " ++ toString port ++ " is already in use.",
       "   Try a different port or stop the existing server.\n"] ∧
    (start_test_server port background env (.failure 48)).servedOnCallingThread = false ∧
    (start_test_server port background env (.failure 48)).backgroundThreadStarted = false :=
  ⟨rfl, rfl, rfl, rfl, rfl, rfl⟩

/-- C9 counterexample: the claim says the UI launcher entry is disabled by
default, but the configuration artifact sets `enabled` to `True`. -/
theorem c9_launcher_enabled_counterexample :
    jupyterServerConfigEntry.launcherEntry.enabled ≠ false := by
  decide

/-- C9 amended: the configuration artifact registers the launch command,
port 9999, a 30-unit timeout and a UI launcher entry that is enabled (not
disabled); the sample entry generated by `create_jupyter_server_config`
also has its launcher entry enabled. -/
theorem c9_config_registration :
    jupyterServerConfigEntry.command = ["python", "-m", "test_jupyter_proxy"] ∧
    jupyterServerConfigEntry.port = 9999 ∧
    jupyterServerConfigEntry.timeout = 30 ∧
    jupyterServerConfigEntry.launcherEntry =
      { enabled := true, title := "Jupyter Proxy Test", iconPath := none } ∧
    createJupyterServerConfigEntry.launcherEntry.enabled = true :=
  ⟨rfl, rfl, rfl, rfl, rfl⟩

/-- C10: `start_test_server` returns `None` both in the handled
port-in-use branch (errno 48, the condition the code recognises) and after
an interrupted foreground run, and those two return values are equal, so
the caller cannot tell the cases apart from the return value; in the
port-in-use case nothing is raised. -/
theorem c10_none_return_indistinguishable (port : Int) (background : Bool) (env : Env) :
    (start_test_server port background env (.failure 48)).result = StartResult.noneResult ∧
    (start_test_server port false env .success).result = StartResult.noneResult ∧
    (start_test_server port background env (.failure 48)).result
      = (start_test_server port false env .success).result :=
  ⟨rfl, rfl, rfl⟩

/-- C6: run as a program, a missing positional argument defaults the port
to 9999 and runs the server in the foreground; an argument `int` rejects
prints the usage message and exits with status 1 (nonzero); a valid
argument runs the server in the foreground on that port. -/
theorem c6_cli_argument_handling (prog a : String) (rest : List String) (env : Env)
    (bind : BindOutcome) :
    pyMain [prog] env bind
      = MainOutcome.ran 9999 false (start_test_server 9999 false env bind) ∧
    (pyInt a = none →
      pyMain (prog :: a :: rest) env bind =
        MainOutcome.usageExit ["Invalid port number: " ++ a,
                               "Usage: python test_jupyter_proxy.py [port]"] 1 ∧ (1 : Nat) ≠ 0) ∧
    (∀ n : Int, pyInt a = some n →
      pyMain (prog :: a :: rest) env bind =
        MainOutcome.ran n false (start_test_server n false env bind)) := by
  refine ⟨rfl, fun h => ⟨?_, by decide⟩, fun n h => ?_⟩
  · simp [pyMain, h]
  · simp [pyMain, h]

/-- C6 witness: the argument `abc` is rejected by `int`, prints the usage
lines and exits with status 1. -/
theorem c6_cli_argument_handling_witness :
    pyMain ["test_jupyter_proxy.py", "abc"]
        { servicePrefixVar := none, baseUrl := none, user := none } BindOutcome.success =
      MainOutcome.usageExit ["Invalid port number: abc",
                             "Usage: python test_jupyter_proxy.py [port]"] 1 :=
  ((c6_cli_argument_handling "test_jupyter_proxy.py" "abc" []
      { servicePrefixVar := none, baseUrl := none, user := none } BindOutcome.success).2.1
    (by decide)).1

/-- C7: a GET whose path is none of `/`, `/index.html`, `/api/test` is
answered by the base handler's file-serving behavior, and when the path
resolves to no file the status is 404. -/
theorem c7_fallback_to_base_handler (env : Env) (fs : String → Option String) (port : Nat)
    (path : String) (h1 : path ≠ "/") (h2 : path ≠ "/index.html") (h3 : path ≠ "/api/test") :
    do_GET env fs port path = simpleHTTPRequestHandlerDoGET fs path ∧
    (fs path = none → (do_GET env fs port path).status = 404) := by
  have hb : do_GET env fs port path = simpleHTTPRequestHandlerDoGET fs path := by
    unfold do_GET
    rw [if_neg (not_or.mpr ⟨h1, h2⟩), if_neg h3]
  refine ⟨hb, fun hn => ?_⟩
  rw [hb]
  unfold simpleHTTPRequestHandlerDoGET
  rw [hn]

/-- C7 witness: requesting `/nope.txt` against an empty file system falls
back to the base handler and returns 404. -/
theorem c7_fallback_to_base_handler_witness :
    (do_GET { servicePrefixVar := none, baseUrl := none, user := none }
      (fun _ => none) 9999 "/nope.txt").status = 404 :=
  (c7_fallback_to_base_handler { servicePrefixVar := none, baseUrl := none, user := none }
    (fun _ => none) 9999 "/nope.txt" (by decide) (by decide) (by decide)).2 rfl
theorem htmlContent_eq (path : String) (port : Nat) (env : Env) :
    htmlContent path port env =
  "
<!DOCTYPE html>
<html>
<head>
    <title>Jupyter Server Proxy Test</title>
    <style>
        body \x7b
            font-family: Arial, sans-serif;
            max-width: 800px;
            margin: 50px auto;
            padding: 20px;
            background: linear-gradient(135deg, #667eea 0%, #764ba2 100%);
            color: white;
        \x7d
        .container \x7b
            background: rgba(255, 255, 255, 0.1);
            padding: 30px;
            border-radius: 10px;
            backdrop-filter: blur(10px);
        \x7d
        h1 \x7b
            color: #fff;
            text-align: center;
        \x7d
        .info \x7b
            background: rgba(255, 255, 255, 0.2);
            padding: 15px;
            border-radius: 5px;
            margin: 20px 0;
        \x7d
        .success \x7b
            background: rgba(76, 175, 80, 0.3);
            border-left: 4px solid #4CAF50;
        \x7d
        code \x7b
            background: rgba(0, 0, 0, 0.3);
            padding: 2px 6px;
            border-radius: 3px;
            font-family: \x27Courier New\x27, monospace;
        \x7d
        .test-button \x7b
            background: #4CAF50;
            color: white;
            padding: 10px 20px;
            border: none;
            border-radius: 5px;
            cursor: pointer;
            margin: 10px 5px;
        \x7d
        .test-button:hover \x7b
            background: #45a049;
        \x7d
        #api-result \x7b
            margin-top: 20px;
            padding: 10px;
            background: rgba(0, 0, 0, 0.2);
            border-radius: 5px;
            min-height: 50px;
        \x7d
    </style>
</head>
<body>
    <div class=\"container\">
        <h1>🎉 Jupyter Server Proxy Test Page</h1>
        
        <div class=\"info success\">
            <strong>✅ Success!</strong> The proxy is working correctly.
        </div>
        
        <div class=\"info\">
            <h3>Connection Details:</h3>
            <p><strong>Request Path:</strong> <code>"
  ++ (path
  ++ ("</code></p>
            <p><strong>Server Port:</strong> <code>"
  ++ (toString port
  ++ ("</code></p>
            <p><strong>Proxy Prefix:</strong> <code>"
  ++ ((if proxyPrefixOf env = "" then "Not set (direct access)" else proxyPrefixOf env)
  ++ ("</code></p>
            <p><strong>Access URL:</strong> <code>"
  ++ (proxyPrefixOf env
  ++ ("proxy/"
  ++ (toString port
  ++ ("/</code></p>
        </div>
        
        <div class=\"info\">
            <h3>Interactive Tests:</h3>
            <button class=\"test-button\" onclick=\"testApi()\">Test API Endpoint</button>
            <button class=\"test-button\" onclick=\"testStatic()\">Load Static Resource</button>
            <div id=\"api-result\"></div>
        </div>
        
        <div class=\"info\">
            <h3>Environment Variables:</h3>
            <ul>
                <li><strong>JUPYTERHUB_SERVICE_PREFIX:</strong> <code>"
  ++ (env.servicePrefixVar.getD "Not set"
  ++ ("</code></li>
                <li><strong>JUPYTERHUB_BASE_URL:</strong> <code>"
  ++ (env.baseUrl.getD "Not set"
  ++ ("</code></li>
                <li><strong>JUPYTERHUB_USER:</strong> <code>"
  ++ (env.user.getD "Not set"
  ++ ("</code></li>
            </ul>
        </div>
        
        <div class=\"info\">
            <h3>How to Use:</h3>
            <ol>
                <li>If you see this page, jupyter-server-proxy is working! ✨</li>
                <li>Try the interactive tests above to verify API routing</li>
                <li>Check the browser console for detailed request information</li>
            </ol>
        </div>
    </div>
    
    <script>
        console.log(\x27Jupyter Server Proxy Test Page loaded\x27);
        console.log(\x27Current URL:\x27, window.location.href);
        console.log(\x27Proxy prefix:\x27, \x27"
  ++ (proxyPrefixOf env
  ++ ("\x27);
        
        function testApi() \x7b
            const resultDiv = document.getElementById(\x27api-result\x27);
            resultDiv.innerHTML = \x27<em>Loading...</em>\x27;
            
            fetch(\x27/api/test\x27)
                .then(response => response.json())
                .then(data => \x7b
                    resultDiv.innerHTML = `<strong>API Response:</strong><br><code>$\x7bJSON.stringify(data, null, 2)\x7d</code>`;
                \x7d)
                .catch(error => \x7b
                    resultDiv.innerHTML = `<strong style=\"color: #ff6b6b;\">Error:</strong> $\x7berror.message\x7d`;
                \x7d);
        \x7d
        
        function testStatic() \x7b
            const resultDiv = document.getElementById(\x27api-result\x27);
            resultDiv.innerHTML = \x27<em>Checking static resource...</em>\x27;
            
            fetch(\x27/static/test.txt\x27)
                .then(response => response.text())
                .then(data => \x7b
                    resultDiv.innerHTML = `<strong>Static Resource:</strong><br><code>$\x7bdata\x7d</code>`;
                \x7d)
                .catch(error => \x7b
                    resultDiv.innerHTML = `<strong style=\"color: #ff6b6b;\">Note:</strong> Static resource not found (expected for basic test)`;
                \x7d);
        \x7d
    </script>
</body>
</html>
")))))))))))))))))) := by
  simp only [htmlContent, str_append_assoc]

/-- C3 counterexample: the body of `/api/test` is `str` of a Python dict,
which renders with single quotes, so the double-quoted text
`"status": "ok"` the claim requires does not occur in it. -/
theorem c3_double_quoted_status_absent :
    occursIn "\"status\": \"ok\""
      ((do_GET { servicePrefixVar := none, baseUrl := none, user := none }
        (fun _ => none) 9999 "/api/test").body) = false := by
  decide

/-- C3 amended: `/api/test` returns status 200 with the JSON content type;
the body is the stringified mapping with the fixed keys `status` (value
`ok`), the fixed message, the bound port and the request path, and it
contains the single-quoted text `'status': 'ok'` and the serving port. -/
theorem c3_api_test_response (env : Env) (fs : String → Option String) (port : Nat) :
    (do_GET env fs port "/api/test").status = 200 ∧
    (do_GET env fs port "/api/test").contentType = "application/json" ∧
    (do_GET env fs port "/api/test").body = apiTestBody port "/api/test" ∧
    occursIn "\x27status\x27: \x27ok\x27" ((do_GET env fs port "/api/test").body) = true ∧
    occursIn (toString port) ((do_GET env fs port "/api/test").body) = true := by
  have hb : do_GET env fs port "/api/test" =
      { status := 200, contentType := "application/json",
        body := apiTestBody port "/api/test" } := by
    unfold do_GET
    rw [if_neg (by decide), if_pos rfl]
  refine ⟨by rw [hb], by rw [hb], by rw [hb], ?_, ?_⟩
  · rw [hb]
    show occursIn _ (apiTestBody port "/api/test") = true
    unfold apiTestBody
    rw [show ("\x7b\x27status\x27: \x27ok\x27, \x27message\x27: \x27API endpoint working through proxy\x27, \x27port\x27: " : String)
        = "\x7b" ++ ("\x27status\x27: \x27ok\x27"
            ++ ", \x27message\x27: \x27API endpoint working through proxy\x27, \x27port\x27: ") from rfl]
    simp only [str_append_assoc]
    exact occursIn_cons_left _ _ _ (occursIn_self_append _ _)
  · rw [hb]
    show occursIn _ (apiTestBody port "/api/test") = true
    unfold apiTestBody
    simp only [str_append_assoc]
    exact occursIn_cons_left _ _ _ (occursIn_self_append _ _)

/-- C8: handling any request produces exactly one log line, and that line
contains the client address and the request line. -/
theorem c8_request_logging (env : Env) (fs : String → Option String) (port : Nat)
    (req : Request) :
    ∃ line, (handleRequest env fs port req).2 = [line] ∧
      occursIn req.address line = true ∧ occursIn req.requestLine line = true := by
  refine ⟨_, rfl, ?_, ?_⟩
  · unfold log_message
    simp only [str_append_assoc]
    exact occursIn_cons_left _ _ _ (occursIn_self_append _ _)
  · unfold log_message
    simp only [str_append_assoc]
    exact occursIn_cons_left _ _ _ (occursIn_cons_left _ _ _ (occursIn_cons_left _ _ _
      (occursIn_cons_left _ _ _ (occursIn_self_append _ _))))

/-- C4 counterexample: with the service-prefix variable set to the empty
string the code appends no separator (the Python truthiness test fails),
while the claim's derivation rule would produce `/`. -/
theorem c4_empty_value_counterexample :
    proxyPrefixOf { servicePrefixVar := some "", baseUrl := none, user := none } = "" ∧
    specProxyPrefixOf { servicePrefixVar := some "", baseUrl := none, user := none } = "/" ∧
    proxyPrefixOf { servicePrefixVar := some "", baseUrl := none, user := none }
      ≠ specProxyPrefixOf { servicePrefixVar := some "", baseUrl := none, user := none } := by
  refine ⟨rfl, rfl, by decide⟩

set_option maxRecDepth 40000 in
/-- C4 amended: the derived proxy prefix is the variable's value with a
trailing separator appended when the variable is set to a nonempty value
not already ending with one, the value unchanged when it already ends with
one, and the empty string when the variable is unset or set to the empty
string; with the variable set to `foo` the rendered access URL of the home
page reads `foo/proxy/<port>/`. -/
theorem c4_prefix_derivation (env : Env) (port : Nat) (v : String) :
    (env.servicePrefixVar = none → proxyPrefixOf env = "") ∧
    (env.servicePrefixVar = some "" → proxyPrefixOf env = "") ∧
    (env.servicePrefixVar = some v → v ≠ "" → strEndsWith v "/" = false →
      proxyPrefixOf env = v ++ "/") ∧
    (env.servicePrefixVar = some v → strEndsWith v "/" = true → proxyPrefixOf env = v) ∧
    occursIn ("<strong>Access URL:</strong> <code>foo/proxy/" ++ toString port ++ "/</code>")
      (htmlContent "/" port { servicePrefixVar := some "foo", baseUrl := none, user := none })
      = true := by
  refine ⟨?_, ?_, ?_, ?_, ?_⟩
  · intro h
    unfold proxyPrefixOf
    rw [h]
    rfl
  · intro h
    unfold proxyPrefixOf
    rw [h]
    rfl
  · intro h hv hends
    unfold proxyPrefixOf
    rw [h]
    have hcond : ((v != "") && !(strEndsWith v "/")) = true := by
      rw [hends]
      simp [bne_iff_ne, hv]
    simp only [Option.getD_some]
    rw [if_pos hcond]
  · intro h hends
    unfold proxyPrefixOf
    rw [h]
    have hcond : ((v != "") && !(strEndsWith v "/")) = false := by
      rw [hends]
      simp
    simp only [Option.getD_some]
    rw [if_neg]
    simp [hcond]
  · have hpp : proxyPrefixOf { servicePrefixVar := some "foo", baseUrl := none, user := none }
        = "foo/" := rfl
    rw [htmlContent_eq, hpp]
    rw [show (if ("foo/" : String) = "" then "Not set (direct access)" else "foo/") = "foo/"
        from rfl]
    rw [show ("</code></p>
            <p><strong>Access URL:</strong> <code>" : String)
        = "</code></p>
            <p>" ++ "<strong>Access URL:</strong> <code>" from rfl]
    rw [show ("<strong>Access URL:</strong> <code>foo/proxy/" : String)
        = "<strong>Access URL:</strong> <code>" ++ ("foo/" ++ "proxy/") from rfl]
    simp only [str_append_assoc]
    refine occursIn_cons_left _ _ _ (occursIn_cons_left _ _ _ (occursIn_cons_left _ _ _
      (occursIn_cons_left _ _ _ (occursIn_cons_left _ _ _ (occursIn_cons_left _ _ _
        (occursIn_cons_left _ _ _ ?_))))))
    apply occursIn_of_head
    simp only [String.data_append]
    rw [charsMatch_append_same, charsMatch_append_same, charsMatch_append_same,
      charsMatch_append_same]
    apply charsMatch_append_right
    decide

/-- C4 witness: the nonempty no-trailing-separator case at value `foo`. -/
theorem c4_prefix_derivation_witness :
    proxyPrefixOf { servicePrefixVar := some "foo", baseUrl := none, user := none }
      = "foo" ++ "/" :=
  (c4_prefix_derivation { servicePrefixVar := some "foo", baseUrl := none, user := none }
    9999 "foo").2.2.1 rfl (by decide) (by decide)

set_option maxRecDepth 40000 in
/-- C5: with the service-prefix variable unset, the home page rendered for
`/` or `/index.html` answers 200 and its Proxy Prefix field reads exactly
`Not set (direct access)`. -/
theorem c5_proxy_prefix_field_unset (env : Env) (fs : String → Option String) (port : Nat)
    (path : String) (hunset : env.servicePrefixVar = none)
    (hpath : path = "/" ∨ path = "/index.html") :
    (do_GET env fs port path).status = 200 ∧
    occursIn "<strong>Proxy Prefix:</strong> <code>Not set (direct access)</code>"
      ((do_GET env fs port path).body) = true := by
  have hb : do_GET env fs port path =
      { status := 200, contentType := "text/html", body := htmlContent path port env } := by
    unfold do_GET
    rw [if_pos hpath]
  refine ⟨by rw [hb], ?_⟩
  rw [hb]
  show occursIn _ (htmlContent path port env) = true
  have hpp : proxyPrefixOf env = "" := by
    unfold proxyPrefixOf
    rw [hunset]
    rfl
  rw [htmlContent_eq, hpp]
  rw [show (if ("" : String) = "" then "Not set (direct access)" else "") = "Not set (direct access)"
      from rfl]
  rw [show ("</code></p>
            <p><strong>Proxy Prefix:</strong> <code>" : String)
      = "</code></p>
            <p>" ++ "<strong>Proxy Prefix:</strong> <code>" from rfl]
  rw [show ("<strong>Proxy Prefix:</strong> <code>Not set (direct access)</code>" : String)
      = "<strong>Proxy Prefix:</strong> <code>" ++ ("Not set (direct access)" ++ "</code>")
      from rfl]
  simp only [str_append_assoc]
  refine occursIn_cons_left _ _ _ (occursIn_cons_left _ _ _ (occursIn_cons_left _ _ _
    (occursIn_cons_left _ _ _ (occursIn_cons_left _ _ _ ?_))))
  apply occursIn_of_head
  simp only [String.data_append]
  rw [charsMatch_append_same, charsMatch_append_same]
  apply charsMatch_append_right
  decide

/-- C5 witness: port 9999, path `/`, all environment variables unset. -/
theorem c5_proxy_prefix_field_unset_witness :
    occursIn "<strong>Proxy Prefix:</strong> <code>Not set (direct access)</code>"
      ((do_GET { servicePrefixVar := none, baseUrl := none, user := none }
        (fun _ => none) 9999 "/").body) = true :=
  (c5_proxy_prefix_field_unset { servicePrefixVar := none, baseUrl := none, user := none }
    (fun _ => none) 9999 "/" rfl (Or.inl rfl)).2
